import Mathlib

/-!
Shallow embedding of the auth-service credential/session core:
src/crypto/utils.py, src/database/dao/tokens.py, src/database/dao/users.py
(the parts the routes use), and src/routes/api.py.

Machine time is modelled as integer seconds; every call to datetime.now()
in the Python source reads one value from a clock stream (clk : Nat → Int)
at the next index, so two now() calls in a row may observe different
instants, exactly as in the source. Redis is an association list of
entries carrying the key, the stored JSON record and the TTL passed to
SETEX. Backend availability is an explicit flag: when it is false the
redis client raises, which every TokensDAO method catches and converts to
its documented negative result (False / None / 0), as in tokens.py.
-/

set_option autoImplicit false

namespace AuthService

/-! ### JSON values and HTTP responses -/

inductive JsonVal where
  | s (v : String)
  | i (v : Int)
  | null
deriving Repr, DecidableEq

/-- A JSONResponse or rendered HTTPException: status code plus JSON object body. -/
structure Response where
  status : Nat
  content : List (String × JsonVal)
deriving Repr, DecidableEq

/-! ### JWT model (PyJWT, HS256)

A presented bearer string either fails to parse as a JWT, or is a payload
signed under some key; jwt.decode verifies the signature against the
server secret first and only then validates the exp claim, raising
ExpiredSignatureError when exp is not in the future (both errors are
PyJWTError subclasses, and the route catches ExpiredSignatureError first,
as PyJWT raises it). -/

structure Payload where
  sub : Option String
  user_id : Option Int
  exp : Int
deriving Repr, DecidableEq

inductive PresentedToken where
  | malformed (raw : String)
  | signed (key : String) (payload : Payload) (raw : String)
deriving Repr, DecidableEq

/-- The bearer string itself, used as the store key. -/
def PresentedToken.raw : PresentedToken → String
  | .malformed r => r
  | .signed _ _ r => r

inductive JwtError where
  | expiredSignature
  | pyJwtError
deriving Repr, DecidableEq

def jwtDecode (secret : String) (now : Int) : PresentedToken → Except JwtError Payload
  | .malformed _ => .error .pyJwtError
  | .signed key p _ =>
    if key = secret then
      if p.exp ≤ now then .error .expiredSignature else .ok p
    else .error .pyJwtError

def optStrRepr : Option String → String
  | none => "None"
  | some s => s

def optIntRepr : Option Int → String
  | none => "None"
  | some n => toString n

/-- The serialized compact form of a token minted by jwt.encode. -/
def jwtSerialize (key : String) (p : Payload) : String :=
  key ++ "." ++ optStrRepr p.sub ++ "." ++ optIntRepr p.user_id ++ "." ++ toString p.exp

def jwtEncode (secret : String) (p : Payload) : PresentedToken :=
  .signed secret p (jwtSerialize secret p)

/-! ### Redis model and TokensDAO (src/database/dao/tokens.py) -/

/-- The JSON record stored under a token key, as built by store_token. -/
structure TokenRecord where
  user_id : Int
  expires_at : Int
  created_at : Int
deriving Repr, DecidableEq

structure StoredEntry where
  key : String
  value : TokenRecord
  ttl : Int
deriving Repr, DecidableEq

abbrev RedisState := List StoredEntry

def redisGet (st : RedisState) (k : String) : Option TokenRecord :=
  (st.find? (fun e => e.key == k)).map (fun e => e.value)

/-- SETEX: store value under key with a TTL, replacing any previous entry. -/
def redisSetex (st : RedisState) (k : String) (ttl : Int) (v : TokenRecord) : RedisState :=
  { key := k, value := v, ttl := ttl } :: st.filter (fun e => e.key != k)

/-- DEL: remove the key, returning the new state and the number of keys removed. -/
def redisDelete (st : RedisState) (k : String) : RedisState × Nat :=
  (st.filter (fun e => e.key != k), (st.filter (fun e => e.key == k)).length)

/-- TokensDAO.store_token. Note the two separate datetime.now() reads in
the source: expires_at is computed from the first, created_at from the
second. On a backend error the exception is caught and False returned. -/
def store_token (redisOk : Bool) (clk : Nat → Int) (i : Nat) (uid : Int)
    (token : String) (expires_in_hours : Int) (st : RedisState) : RedisState × Bool :=
  if redisOk then
    let expires_at := clk i + expires_in_hours * 3600
    let token_data : TokenRecord :=
      { user_id := uid, expires_at := expires_at, created_at := clk (i + 1) }
    let key := "token:" ++ token
    (redisSetex st key (expires_in_hours * 3600) token_data, true)
  else
    (st, false)

/-- TokensDAO.get_token: backend errors fold into None. -/
def get_token (redisOk : Bool) (st : RedisState) (token : String) : Option TokenRecord :=
  if redisOk then redisGet st ("token:" ++ token) else none

/-- TokensDAO.delete_token: returns whether a key was actually removed;
backend errors fold into False. -/
def delete_token (redisOk : Bool) (st : RedisState) (token : String) : RedisState × Bool :=
  if redisOk then
    let r := redisDelete st ("token:" ++ token)
    (r.fst, decide (0 < r.snd))
  else (st, false)

/-- TokensDAO.is_token_valid: fetch the record and compare the embedded
expires_at against one datetime.now() read. -/
def is_token_valid (redisOk : Bool) (now : Int) (st : RedisState) (token : String) : Bool :=
  match get_token redisOk st token with
  | none => false
  | some token_data => decide (now < token_data.expires_at)

/-- The scan loop of TokensDAO.revoke_user_tokens: for each key in the
keyspace snapshot, GET the record and DEL the key when its user_id
matches, counting deletions. -/
def revokeScan (uid : Int) : RedisState → RedisState × Nat
  | [] => ([], 0)
  | e :: rest =>
    if e.value.user_id == uid then
      let r := revokeScan uid rest
      (r.fst, r.snd + 1)
    else
      let r := revokeScan uid rest
      (e :: r.fst, r.snd)

/-- TokensDAO.revoke_user_tokens: backend errors fold into 0. -/
def revoke_user_tokens (redisOk : Bool) (uid : Int) (st : RedisState) : RedisState × Nat :=
  if redisOk then revokeScan uid st else (st, 0)

/-! ### UsersDAO (src/database/dao/users.py), as consumed by the routes -/

structure UserRow where
  id : Int
  login : String
  password_hash : String
  created_at : Int
  last_login : Option Int
deriving Repr, DecidableEq

abbrev UsersDb := List UserRow

def get_user_by_login (db : UsersDb) (l : String) : Option UserRow :=
  db.find? (fun u => u.login == l)

def get_user_by_id (db : UsersDb) (uid : Int) : Option UserRow :=
  db.find? (fun u => u.id == uid)

def update_last_login (db : UsersDb) (uid : Int) (t : Int) : UsersDb :=
  db.map (fun u => if u.id == uid then { u with last_login := some t } else u)

def delete_user (db : UsersDb) (uid : Int) : UsersDb :=
  db.filter (fun u => u.id != uid)

/-! ### Routes (src/routes/api.py)

The routes are parameterized by the password verifier (the call into
src/crypto/utils.py, whose own model is in the Crypto namespace below),
the server secret, the clock stream and the redis-availability flag. -/

structure SysState where
  users : UsersDb
  redis : RedisState
deriving Repr, DecidableEq

structure AuthRequest where
  login : String
  password : String
deriving Repr, DecidableEq

def invalidCredentialsResponse : Response :=
  { status := 401, content := [("message", .s "Invalid credentials")] }

/-- Result of the get_current_user dependency: either the decoded identity
dict or the raised HTTPException. -/
inductive AuthResult where
  | ok (user_id : Int) (login : String)
  | httpError (status : Nat) (detail : String)
deriving Repr, DecidableEq

/-- Python truthiness of an optional integer claim (0 and absent are falsy). -/
def truthyInt : Option Int → Bool
  | none => false
  | some n => n != 0

/-- Python truthiness of an optional string claim (empty and absent are falsy). -/
def truthyStr : Option String → Bool
  | none => false
  | some s => s != ""

/-- get_current_user. The returned flag records whether the token store was
consulted (the is_token_valid round trip was reached). datetime/time reads:
jwt.decode checks exp against clk i; is_token_valid reads clk (i+1). -/
def get_current_user (secret : String) (clk : Nat → Int) (i : Nat) (redisOk : Bool)
    (redis : RedisState) (t : PresentedToken) : AuthResult × Bool :=
  match jwtDecode secret (clk i) t with
  | .error .expiredSignature => (.httpError 401 "Token has expired", false)
  | .error .pyJwtError => (.httpError 401 "Invalid token", false)
  | .ok payload =>
    if truthyInt payload.user_id && truthyStr payload.sub then
      if is_token_valid redisOk (clk (i + 1)) redis t.raw then
        (.ok (payload.user_id.getD 0) ((payload.sub).getD ""), true)
      else
        (.httpError 401 "Token not found or expired", true)
    else
      (.httpError 401 "Invalid token payload", false)

/-- login_account. Clock reads in source order: last_login update uses
clk i, the JWT exp uses clk (i+1) + 24h, store_token reads clk (i+2) and
clk (i+3). The boolean result of store_token is discarded, as in the
source. -/
def login_account (secret : String) (verify : String → String → Bool)
    (clk : Nat → Int) (i : Nat) (redisOk : Bool)
    (req : AuthRequest) (st : SysState) : SysState × Response :=
  match get_user_by_login st.users req.login with
  | none => (st, invalidCredentialsResponse)
  | some user =>
    if verify req.password user.password_hash then
      let users2 := update_last_login st.users user.id (clk i)
      let token_data : Payload :=
        { sub := some user.login, user_id := some user.id, exp := clk (i + 1) + 24 * 3600 }
      let token := jwtEncode secret token_data
      let r := store_token redisOk clk (i + 2) user.id token.raw 24 st.redis
      ({ users := users2, redis := r.fst },
       { status := 200,
         content := [("access_token", .s token.raw), ("token_type", .s "bearer")] })
    else
      (st, invalidCredentialsResponse)

/-- logout_account: delete the token and report success only when a record
was removed, otherwise raise HTTPException 400. -/
def logout_account (redisOk : Bool) (token : String) (st : RedisState) :
    RedisState × Response :=
  let r := delete_token redisOk st token
  if r.snd then
    (r.fst, { status := 200, content := [("message", .s "Successfully logged out")] })
  else
    (r.fst, { status := 400, content := [("detail", .s "Failed to logout token")] })

/-- Observable side-effect order of delete_account. -/
inductive Event where
  | revokeTokens (uid : Int)
  | deleteUserRec (uid : Int)
deriving Repr, DecidableEq

/-- delete_account: same credential check as login_account, then revoke all
tokens of the user, then delete the user row; the event list records the
order of the two destructive calls. -/
def delete_account (verify : String → String → Bool) (redisOk : Bool)
    (req : AuthRequest) (st : SysState) : SysState × Response × List Event :=
  match get_user_by_login st.users req.login with
  | none => (st, invalidCredentialsResponse, [])
  | some user =>
    if verify req.password user.password_hash then
      let r := revoke_user_tokens redisOk user.id st.redis
      let users2 := delete_user st.users user.id
      ({ users := users2, redis := r.fst },
       { status := 200, content := [("message", .s "User deleted successfully")] },
       [.revokeTokens user.id, .deleteUserRec user.id])
    else
      (st, invalidCredentialsResponse, [])

/-- The dict produced for a user row by _fetch_all_as_dicts (SELECT *). -/
def userToRow (u : UserRow) : List (String × JsonVal) :=
  [("id", .i u.id), ("login", .s u.login), ("password_hash", .s u.password_hash),
   ("created_at", .i u.created_at),
   ("last_login", match u.last_login with | none => .null | some t => .i t)]

/-- dict.pop(k, None): drop the key from the row. -/
def popKey (k : String) (row : List (String × JsonVal)) : List (String × JsonVal) :=
  row.filter (fun kv => kv.fst != k)

/-- get_profile, after get_current_user has resolved the identity. -/
def get_profile (db : UsersDb) (current_user_id : Int) : Response :=
  match get_user_by_id db current_user_id with
  | none => { status := 404, content := [("detail", .s "User not found")] }
  | some user => { status := 200, content := popKey "password_hash" (userToRow user) }

end AuthService

namespace Crypto

/-!
Model of src/crypto/utils.py over the python bcrypt library. A stored
hash string either parses as a bcrypt hash (cost, salt, digest — bcrypt
output is self-describing) or is malformed, in which case bcrypt.checkpw
raises ValueError("Invalid salt"). The key-derivation function itself is
an opaque parameter kdf: every theorem below holds for any kdf, i.e.
nothing is assumed about blowfish. gensalt draws fresh entropy per call;
the entropy drawn is an explicit argument. -/

inductive HashStr where
  | wellFormed (cost : Nat) (salt : Nat) (digest : String)
  | malformed (raw : String)
deriving Repr, DecidableEq

inductive PyError where
  | valueError (msg : String)
deriving Repr, DecidableEq

def bcryptGensalt (entropy : Nat) : Nat := entropy

def bcryptHashpw (kdf : String → Nat → Nat → String) (password : String)
    (cost salt : Nat) : HashStr :=
  .wellFormed cost salt (kdf password cost salt)

/-- bcrypt.checkpw: re-derive the digest with the parameters embedded in
the stored hash and compare; raise ValueError when the hash does not
parse. -/
def bcryptCheckpw (kdf : String → Nat → Nat → String) (password : String) :
    HashStr → Except PyError Bool
  | .malformed _ => .error (.valueError "Invalid salt")
  | .wellFormed cost salt digest => .ok (kdf password cost salt == digest)

/-- encrypt_password: gensalt (default cost 12) then hashpw. -/
def encrypt_password (kdf : String → Nat → Nat → String) (entropy : Nat)
    (password : String) : HashStr :=
  bcryptHashpw kdf password 12 (bcryptGensalt entropy)

/-- verify_password: a bare call to bcrypt.checkpw, with no exception
handling around it. -/
def verify_password (kdf : String → Nat → Nat → String)
    (plain_password : String) (hashed_password : HashStr) : Except PyError Bool :=
  bcryptCheckpw kdf plain_password hashed_password

end Crypto

open AuthService Crypto

/-! ### Helper lemmas -/

lemma length_filter_pos_iff_find (p : StoredEntry → Bool) (st : List StoredEntry) :
    0 < (st.filter p).length ↔ (st.find? p).isSome := by
  rw [List.length_pos, Ne, List.filter_eq_nil_iff, List.find?_isSome]
  push_neg
  simp

/-! ### C5 -/

/-- C5 (code bug evidence): for every password and every malformed stored
hash string, verify_password raises ValueError("Invalid salt") from
bcrypt.checkpw — there is no exception handling in verify_password — so
the error propagates to the caller instead of a false return. -/
theorem verify_password_malformed_raises (kdf : String → Nat → Nat → String)
    (password raw : String) :
    verify_password kdf password (.malformed raw)
      = .error (.valueError "Invalid salt") := rfl

/-! ### C8 -/

/-- C8: for every password p (the empty string included) and any two
distinct fresh salts drawn by gensalt, verify(p, hash(p)) is true for
both hashes while the two hash values differ. -/
theorem encrypt_verify_roundtrip (kdf : String → Nat → Nat → String)
    (e1 e2 : Nat) (p : String) (h : e1 ≠ e2) :
    verify_password kdf p (encrypt_password kdf e1 p) = .ok true ∧
    verify_password kdf p (encrypt_password kdf e2 p) = .ok true ∧
    encrypt_password kdf e1 p ≠ encrypt_password kdf e2 p := by
  refine ⟨?_, ?_, ?_⟩
  · simp [verify_password, encrypt_password, bcryptCheckpw, bcryptHashpw, bcryptGensalt]
  · simp [verify_password, encrypt_password, bcryptCheckpw, bcryptHashpw, bcryptGensalt]
  · intro hc
    apply h
    have hc2 : e1 = e2 ∧ kdf p 12 e1 = kdf p 12 e2 := by
      simpa [encrypt_password, bcryptHashpw, bcryptGensalt] using hc
    exact hc2.1

/-- C8 witness: concrete key-derivation function, password "" and fresh
salts 0 and 1. -/
theorem encrypt_verify_roundtrip_witness :
    (0 : Nat) ≠ 1 ∧
    (verify_password (fun p _ s => p ++ toString s) ""
        (encrypt_password (fun p _ s => p ++ toString s) 0 "") = .ok true ∧
     verify_password (fun p _ s => p ++ toString s) ""
        (encrypt_password (fun p _ s => p ++ toString s) 1 "") = .ok true ∧
     encrypt_password (fun p _ s => p ++ toString s) 0 ""
        ≠ encrypt_password (fun p _ s => p ++ toString s) 1 "") :=
  ⟨by decide, encrypt_verify_roundtrip (fun p _ s => p ++ toString s) 0 1 "" (by decide)⟩

/-! ### C2 -/

/-- C2: a login attempt with an unknown login and a login attempt with a
known login but failing password verification produce identical
responses: the single uniform invalid-credentials outcome (HTTP 401,
message "Invalid credentials"). -/
theorem login_uniform_invalid (secret : String) (verify : String → String → Bool)
    (clk : Nat → Int) (i : Nat) (redisOk : Bool) (req1 req2 : AuthRequest)
    (st1 st2 : SysState) (u : UserRow)
    (h1 : get_user_by_login st1.users req1.login = none)
    (h2 : get_user_by_login st2.users req2.login = some u)
    (h3 : verify req2.password u.password_hash = false) :
    (login_account secret verify clk i redisOk req1 st1).snd
      = (login_account secret verify clk i redisOk req2 st2).snd ∧
    (login_account secret verify clk i redisOk req1 st1).snd
      = invalidCredentialsResponse := by
  constructor <;> simp [login_account, h1, h2, h3]

/-- C2 witness: empty user table versus a table holding user "bob" with a
verifier that rejects the password. -/
theorem login_uniform_invalid_witness :
    (get_user_by_login ([] : UsersDb) "a" = none ∧
     get_user_by_login [{ id := 1, login := "b", password_hash := "h", created_at := 0,
                          last_login := none }] "b"
       = some { id := 1, login := "b", password_hash := "h", created_at := 0,
                last_login := none } ∧
     (fun (_ : String) (_ : String) => false) "p" "h" = false) ∧
    (login_account "s" (fun _ _ => false) (fun _ => 0) 0 true
        { login := "a", password := "p" } { users := [], redis := [] }).snd
      = (login_account "s" (fun _ _ => false) (fun _ => 0) 0 true
        { login := "b", password := "p" }
        { users := [{ id := 1, login := "b", password_hash := "h", created_at := 0,
                      last_login := none }], redis := [] }).snd :=
  ⟨⟨rfl, rfl, rfl⟩,
   (login_uniform_invalid "s" (fun _ _ => false) (fun _ => 0) 0 true
      { login := "a", password := "p" } { login := "b", password := "p" }
      { users := [], redis := [] }
      { users := [{ id := 1, login := "b", password_hash := "h", created_at := 0,
                    last_login := none }], redis := [] }
      { id := 1, login := "b", password_hash := "h", created_at := 0, last_login := none }
      rfl rfl rfl).1⟩

/-! ### C4 -/

/-- C4 counterexample: logging out a token whose record is absent (for
example a second logout of the same token) is surfaced as an error — the
route answers HTTP 400 "Failed to logout token", not success. -/
theorem logout_absent_counterexample :
    (logout_account true "t" []).snd
      = { status := 400, content := [("detail", JsonVal.s "Failed to logout token")] } := rfl

/-- C4 amended: logout deletes the token's store record, but it reports
success only when a record was actually removed: the response is HTTP 200
exactly when a record existed, and HTTP 400 "Failed to logout token" when
the token was already absent, so a double logout IS surfaced as an error. -/
theorem logout_spec (token : String) (st : RedisState) :
    (logout_account true token st).fst
      = st.filter (fun e => e.key != "token:" ++ token) ∧
    ((logout_account true token st).snd.status = 200
      ↔ (redisGet st ("token:" ++ token)).isSome = true) ∧
    ((redisGet st ("token:" ++ token)).isSome = true →
      (logout_account true token st).snd
        = { status := 200, content := [("message", JsonVal.s "Successfully logged out")] }) ∧
    (redisGet st ("token:" ++ token) = none →
      (logout_account true token st).snd
        = { status := 400, content := [("detail", JsonVal.s "Failed to logout token")] }) := by
  have hiff : (0 < (st.filter (fun e => e.key == "token:" ++ token)).length)
      ↔ (redisGet st ("token:" ++ token)).isSome = true := by
    rw [length_filter_pos_iff_find]
    simp [redisGet]
  refine ⟨?_, ?_, ?_, ?_⟩
  · simp [logout_account, delete_token, redisDelete]
    split <;> rfl
  · by_cases hmem : (redisGet st ("token:" ++ token)).isSome = true
    · simp [logout_account, delete_token, redisDelete, hiff.mpr hmem, hmem]
    · have : ¬ 0 < (st.filter (fun e => e.key == "token:" ++ token)).length :=
        fun hp => hmem (hiff.mp hp)
      simp [logout_account, delete_token, redisDelete, this, hmem]
  · intro hmem
    simp [logout_account, delete_token, redisDelete, hiff.mpr hmem]
  · intro hmem
    have hns : ¬ (redisGet st ("token:" ++ token)).isSome = true := by simp [hmem]
    have : ¬ 0 < (st.filter (fun e => e.key == "token:" ++ token)).length :=
      fun hp => hns (hiff.mp hp)
    simp [logout_account, delete_token, redisDelete, this]

/-- C4 (amended) witness: logging out a present token succeeds. -/
theorem logout_spec_witness :
    (redisGet [{ key := "token:t", value := { user_id := 1, expires_at := 10, created_at := 0 },
                 ttl := 10 }] ("token:" ++ "t")).isSome = true ∧
    (logout_account true "t"
        [{ key := "token:t", value := { user_id := 1, expires_at := 10, created_at := 0 },
           ttl := 10 }]).snd
      = { status := 200, content := [("message", JsonVal.s "Successfully logged out")] } :=
  ⟨by decide,
   (logout_spec "t"
      [{ key := "token:t", value := { user_id := 1, expires_at := 10, created_at := 0 },
         ttl := 10 }]).2.2.1 (by decide)⟩

/-! ### C9 -/

/-- C9 counterexample: with a clock that advances one second between the
two datetime.now() reads inside store_token, the written record carries
TTL 86400 seconds but expires_at - created_at = 86400 - 1, so the
store-level TTL is not exactly expires_at - created_at. -/
theorem store_token_ttl_counterexample :
    (store_token true (fun n => (n : Int)) 0 7 "tok" 24 []).fst
      = [{ key := "token:tok",
           value := { user_id := 7, expires_at := 86400, created_at := 1 },
           ttl := 86400 }] ∧
    (86400 : Int) - (1 : Int) ≠ (86400 : Int) := ⟨rfl, by decide⟩

/-- C9 amended: the record written is {user_id, created_at, expires_at}
keyed by "token:" ++ token, with store TTL exactly expires_in_hours*3600
seconds (86400 for the default 24 hours passed by login_account, equal to
the signed payload's 24-hour expiry duration); expires_at - created_at
equals that TTL minus the clock advance between the two datetime.now()
reads of store_token, so it equals the TTL only when the clock does not
advance between them. -/
theorem store_token_spec (clk : Nat → Int) (i : Nat) (uid : Int) (tok : String)
    (hours : Int) (st : RedisState) :
    store_token true clk i uid tok hours st
      = ({ key := "token:" ++ tok,
           value := { user_id := uid, expires_at := clk i + hours * 3600,
                      created_at := clk (i + 1) },
           ttl := hours * 3600 } :: st.filter (fun e => e.key != "token:" ++ tok), true) ∧
    (clk i + hours * 3600) - clk (i + 1) = hours * 3600 - (clk (i + 1) - clk i) := by
  constructor
  · rfl
  · ring

/-! ### C6 -/

lemma revokeScan_eq (uid : Int) (st : RedisState) :
    revokeScan uid st
      = (st.filter (fun e => e.value.user_id != uid),
         (st.filter (fun e => e.value.user_id == uid)).length) := by
  induction st with
  | nil => rfl
  | cons e rest ih =>
    by_cases h : e.value.user_id = uid <;>
      simp [revokeScan, h, ih, List.filter_cons]

lemma redisGet_filter_user (uid : Int) (k : String) (st : RedisState) (rec : TokenRecord)
    (hfind : redisGet st k = some rec) (hne : rec.user_id ≠ uid) :
    redisGet (st.filter (fun e => e.value.user_id != uid)) k = some rec := by
  induction st with
  | nil => simp [redisGet] at hfind
  | cons e rest ih =>
    by_cases hk : e.key = k
    · have hrec : e.value = rec := by
        simpa [redisGet, List.find?_cons, hk] using hfind
      have hkeep : (e.value.user_id != uid) = true := by
        simp [hrec, hne]
      simp [List.filter_cons, hkeep, redisGet, List.find?_cons, hk]
      exact hrec
    · have htail : redisGet rest k = some rec := by
        simpa [redisGet, List.find?_cons, hk] using hfind
      by_cases hkeep : (e.value.user_id != uid) = true
      · simpa [List.filter_cons, hkeep, redisGet, List.find?_cons, hk] using ih htail
      · simpa [List.filter_cons, hkeep] using ih htail

/-- C6: revoke_user_tokens deletes exactly the records whose embedded
user_id equals uid and returns the number of records it deleted;
afterwards no record of uid remains, and every token whose record belongs
to another user still resolves to the same record and validates exactly
as before. -/
theorem revoke_user_tokens_spec (uid : Int) (st : RedisState) :
    revoke_user_tokens true uid st
      = (st.filter (fun e => e.value.user_id != uid),
         (st.filter (fun e => e.value.user_id == uid)).length) ∧
    (∀ e ∈ (revoke_user_tokens true uid st).fst, e.value.user_id ≠ uid) ∧
    (∀ tok rec, redisGet st ("token:" ++ tok) = some rec → rec.user_id ≠ uid →
      redisGet (revoke_user_tokens true uid st).fst ("token:" ++ tok) = some rec ∧
      ∀ now, is_token_valid true now (revoke_user_tokens true uid st).fst tok
               = is_token_valid true now st tok) := by
  have hmain : revoke_user_tokens true uid st
      = (st.filter (fun e => e.value.user_id != uid),
         (st.filter (fun e => e.value.user_id == uid)).length) := by
    simpa [revoke_user_tokens] using revokeScan_eq uid st
  refine ⟨hmain, ?_, ?_⟩
  · intro e he
    rw [hmain] at he
    have := List.of_mem_filter he
    simpa using this
  · intro tok rec hget hne
    have hpres : redisGet (revoke_user_tokens true uid st).fst ("token:" ++ tok)
        = some rec := by
      rw [hmain]
      exact redisGet_filter_user uid ("token:" ++ tok) st rec hget hne
    refine ⟨hpres, ?_⟩
    intro now
    simp [is_token_valid, get_token, hpres, hget]

/-- C6 witness: a store holding one token of user 2 and one of user 1;
revoking user 1 leaves user 2's token resolving and validating as before. -/
theorem revoke_user_tokens_spec_witness :
    (redisGet [{ key := "token:a", value := { user_id := 2, expires_at := 100, created_at := 0 },
                 ttl := 100 },
               { key := "token:b", value := { user_id := 1, expires_at := 100, created_at := 0 },
                 ttl := 100 }] ("token:" ++ "a")
       = some { user_id := 2, expires_at := 100, created_at := 0 } ∧
     (2 : Int) ≠ 1) ∧
    ∀ now, is_token_valid true now
        (revoke_user_tokens true 1
          [{ key := "token:a", value := { user_id := 2, expires_at := 100, created_at := 0 },
             ttl := 100 },
           { key := "token:b", value := { user_id := 1, expires_at := 100, created_at := 0 },
             ttl := 100 }]).fst "a"
      = is_token_valid true now
          [{ key := "token:a", value := { user_id := 2, expires_at := 100, created_at := 0 },
             ttl := 100 },
           { key := "token:b", value := { user_id := 1, expires_at := 100, created_at := 0 },
             ttl := 100 }] "a" :=
  ⟨⟨by decide, by decide⟩,
   ((revoke_user_tokens_spec 1
      [{ key := "token:a", value := { user_id := 2, expires_at := 100, created_at := 0 },
         ttl := 100 },
       { key := "token:b", value := { user_id := 1, expires_at := 100, created_at := 0 },
         ttl := 100 }]).2.2 "a" { user_id := 2, expires_at := 100, created_at := 0 }
      (by decide) (by decide)).2⟩

/-! ### C10 -/

lemma popKey_userToRow (u : UserRow) :
    popKey "password_hash" (userToRow u)
      = [("id", .i u.id), ("login", .s u.login), ("created_at", .i u.created_at),
         ("last_login", match u.last_login with | none => .null | some t => .i t)] := by
  simp [popKey, userToRow]

/-- C10: a profile lookup that finds the user returns the row with the
password_hash field removed: the response never contains a
password_hash key, and two user rows that agree on every field except
password_hash produce identical profile responses. -/
theorem get_profile_spec (db : UsersDb) (uid : Int) (u : UserRow)
    (hu : get_user_by_id db uid = some u) :
    get_profile db uid
      = { status := 200, content := popKey "password_hash" (userToRow u) } ∧
    (∀ kv ∈ (get_profile db uid).content, kv.fst ≠ "password_hash") ∧
    (∀ u2 : UserRow, u2.id = u.id → u2.login = u.login → u2.created_at = u.created_at →
      u2.last_login = u.last_login →
      popKey "password_hash" (userToRow u2) = popKey "password_hash" (userToRow u)) := by
  refine ⟨by simp [get_profile, hu], ?_, ?_⟩
  · intro kv hkv
    simp [get_profile, hu, popKey_userToRow] at hkv
    rcases hkv with h | h | h | h <;> simp [h]
  · intro u2 h1 h2 h3 h4
    simp [popKey_userToRow, h1, h2, h3, h4]

/-- C10 witness: two rows identical except for password_hash yield the
same 200 profile body, which lacks the password_hash key. -/
theorem get_profile_spec_witness :
    get_user_by_id [{ id := 5, login := "u", password_hash := "h1", created_at := 3,
                      last_login := none }] 5
      = some { id := 5, login := "u", password_hash := "h1", created_at := 3,
               last_login := none } ∧
    popKey "password_hash"
        (userToRow { id := 5, login := "u", password_hash := "h2", created_at := 3,
                     last_login := none })
      = popKey "password_hash"
          (userToRow { id := 5, login := "u", password_hash := "h1", created_at := 3,
                       last_login := none }) :=
  ⟨by decide,
   (get_profile_spec [{ id := 5, login := "u", password_hash := "h1", created_at := 3,
                        last_login := none }] 5
      { id := 5, login := "u", password_hash := "h1", created_at := 3, last_login := none }
      (by decide)).2.2
      { id := 5, login := "u", password_hash := "h2", created_at := 3, last_login := none }
      rfl rfl rfl rfl⟩

/-! ### C1 -/

lemma is_token_valid_iff (now : Int) (st : RedisState) (tok : String) :
    is_token_valid true now st tok = true
      ↔ ∃ rec, redisGet st ("token:" ++ tok) = some rec ∧ now < rec.expires_at := by
  simp only [is_token_valid, get_token, if_true]
  cases h : redisGet st ("token:" ++ tok) <;> simp [h]

/-- C1 counterexample: a token signed under the server secret, with exp in
the future and a fresh matching store record, is nonetheless rejected
(HTTP 401 "Invalid token payload") because its payload lacks a sub claim
— so the three claimed conditions do not suffice for acceptance. -/
theorem get_current_user_claim_counterexample :
    jwtDecode "s" 0 (.signed "s" { sub := none, user_id := some 1, exp := 100 } "tok")
      = .ok { sub := none, user_id := some 1, exp := 100 } ∧
    redisGet [{ key := "token:tok",
                value := { user_id := 1, expires_at := 100, created_at := 0 },
                ttl := 86400 }] ("token:" ++ "tok")
      = some { user_id := 1, expires_at := 100, created_at := 0 } ∧
    (get_current_user "s" (fun _ => 0) 0 true
        [{ key := "token:tok",
           value := { user_id := 1, expires_at := 100, created_at := 0 },
           ttl := 86400 }]
        (.signed "s" { sub := none, user_id := some 1, exp := 100 } "tok")).fst
      = .httpError 401 "Invalid token payload" := ⟨rfl, by decide, by decide⟩

/-- C1 amended: get_current_user returns the decoded identity iff the
token is signed under the server secret, its payload exp lies strictly
after the instant of the signature check, the payload's user_id and sub
claims are truthy, and the store holds a matching record whose embedded
expires_at lies strictly after the instant of the store check; the checks
run in that order and the store round trip happens iff the signature,
expiry and payload checks all passed, so the store is never consulted for
a token failing signature or expiry. -/
theorem get_current_user_spec (secret : String) (clk : Nat → Int) (i : Nat)
    (redis : RedisState) (t : PresentedToken) :
    ((∃ uid l, (get_current_user secret clk i true redis t).fst = .ok uid l)
      ↔ ∃ p raw, t = .signed secret p raw ∧ clk i < p.exp ∧
          truthyInt p.user_id = true ∧ truthyStr p.sub = true ∧
          ∃ rec, redisGet redis ("token:" ++ raw) = some rec ∧
            clk (i + 1) < rec.expires_at) ∧
    ((get_current_user secret clk i true redis t).snd = true
      ↔ ∃ p raw, t = .signed secret p raw ∧ clk i < p.exp ∧
          truthyInt p.user_id = true ∧ truthyStr p.sub = true) := by
  cases t with
  | malformed raw => simp [get_current_user, jwtDecode]
  | signed key p raw =>
    by_cases hkey : key = secret
    · subst hkey
      by_cases hexp : p.exp ≤ clk i
      · have hnlt : ¬ clk i < p.exp := not_lt.mpr hexp
        simp [get_current_user, jwtDecode, hexp, hnlt]
      · have hlt : clk i < p.exp := not_le.mp hexp
        by_cases h1 : truthyInt p.user_id = true
        · by_cases h2 : truthyStr p.sub = true
          · by_cases hv : is_token_valid true (clk (i + 1)) redis raw = true
            · have hrec := (is_token_valid_iff (clk (i + 1)) redis raw).mp hv
              constructor
              · simp [get_current_user, jwtDecode, hexp, h1, h2, PresentedToken.raw, hv,
                      hlt]
                exact ⟨p, raw, ⟨rfl, rfl⟩, hlt, h1, h2, hrec⟩
              · simp [get_current_user, jwtDecode, hexp, h1, h2, PresentedToken.raw, hv,
                      hlt]
            · have hnrec : ¬ ∃ rec, redisGet redis ("token:" ++ raw) = some rec ∧
                  clk (i + 1) < rec.expires_at :=
                fun hx => hv ((is_token_valid_iff (clk (i + 1)) redis raw).mpr hx)
              constructor
              · simp [get_current_user, jwtDecode, hexp, h1, h2, PresentedToken.raw, hv,
                      hlt]
                intro rec hr
                exact le_of_not_lt (fun hclk => hnrec ⟨rec, hr, hclk⟩)
              · simp [get_current_user, jwtDecode, hexp, h1, h2, PresentedToken.raw, hv,
                      hlt]
          · simp [get_current_user, jwtDecode, hexp, h1, h2, hlt]
        · simp [get_current_user, jwtDecode, hexp, h1, hlt]
    · simp [get_current_user, jwtDecode, hkey]

/-- C1 (amended) witness: a fully well-formed token with a fresh store
record is accepted. -/
theorem get_current_user_spec_witness :
    ∃ uid l, (get_current_user "s" (fun _ => 0) 0 true
        [{ key := "token:tok",
           value := { user_id := 1, expires_at := 100, created_at := 0 },
           ttl := 86400 }]
        (.signed "s" { sub := some "u", user_id := some 1, exp := 100 } "tok")).fst
      = .ok uid l :=
  ((get_current_user_spec "s" (fun _ => 0) 0
      [{ key := "token:tok",
         value := { user_id := 1, expires_at := 100, created_at := 0 },
         ttl := 86400 }]
      (.signed "s" { sub := some "u", user_id := some 1, exp := 100 } "tok")).1).mpr
    ⟨{ sub := some "u", user_id := some 1, exp := 100 }, "tok", rfl, by decide, by decide,
     by decide, ⟨{ user_id := 1, expires_at := 100, created_at := 0 }, by decide, by decide⟩⟩

/-! ### C3 -/

/-- C3 counterexample: with the token-store backend failing (store_token
returns False), a login with correct credentials still answers HTTP 200
and hands the signed token to the caller, while the store holds no record
for it. -/
theorem login_store_failure_counterexample :
    (login_account "s" (fun _ _ => true) (fun _ => 0) 0 false
        { login := "alice", password := "pw" }
        { users := [{ id := 1, login := "alice", password_hash := "h", created_at := 0,
                      last_login := none }], redis := [] }).snd.status = 200 ∧
    (List.lookup "access_token"
        (login_account "s" (fun _ _ => true) (fun _ => 0) 0 false
          { login := "alice", password := "pw" }
          { users := [{ id := 1, login := "alice", password_hash := "h", created_at := 0,
                        last_login := none }], redis := [] }).snd.content).isSome = true ∧
    (login_account "s" (fun _ _ => true) (fun _ => 0) 0 false
        { login := "alice", password := "pw" }
        { users := [{ id := 1, login := "alice", password_hash := "h", created_at := 0,
                      last_login := none }], redis := [] }).fst.redis = [] :=
  ⟨rfl, rfl, rfl⟩

/-- C3 amended: when the store write fails, login_account nonetheless
reports success — HTTP 200 carrying the signed token — while the token
store is left unchanged, so the token is handed out with no store record
(the failure is only logged); such a token then fails store validation. -/
theorem login_store_failure_spec (secret : String) (verify : String → String → Bool)
    (clk : Nat → Int) (i : Nat) (req : AuthRequest) (st : SysState) (u : UserRow)
    (hu : get_user_by_login st.users req.login = some u)
    (hv : verify req.password u.password_hash = true) :
    (login_account secret verify clk i false req st).snd.status = 200 ∧
    List.lookup "access_token"
        (login_account secret verify clk i false req st).snd.content
      = some (.s (jwtSerialize secret
          { sub := some u.login, user_id := some u.id, exp := clk (i + 1) + 24 * 3600 })) ∧
    (login_account secret verify clk i false req st).fst.redis = st.redis ∧
    (redisGet st.redis ("token:" ++ jwtSerialize secret
          { sub := some u.login, user_id := some u.id, exp := clk (i + 1) + 24 * 3600 })
        = none →
      ∀ now, is_token_valid true now
          (login_account secret verify clk i false req st).fst.redis
          (jwtSerialize secret
            { sub := some u.login, user_id := some u.id, exp := clk (i + 1) + 24 * 3600 })
        = false) := by
  refine ⟨?_, ?_, ?_, ?_⟩
  · simp [login_account, hu, hv, store_token]
  · simp [login_account, hu, hv, store_token, jwtEncode, PresentedToken.raw, List.lookup]
  · simp [login_account, hu, hv, store_token]
  · intro habs now
    norm_num at habs
    simp [login_account, hu, hv, store_token, is_token_valid, get_token, jwtEncode,
          PresentedToken.raw, habs]

/-- C3 (amended) witness: concrete failing-store login. -/
theorem login_store_failure_spec_witness :
    (get_user_by_login [{ id := 1, login := "alice", password_hash := "h", created_at := 0,
                          last_login := none }] "alice"
       = some { id := 1, login := "alice", password_hash := "h", created_at := 0,
                last_login := none } ∧
     (fun (_ : String) (_ : String) => true) "pw" "h" = true) ∧
    (login_account "s" (fun _ _ => true) (fun _ => 0) 0 false
        { login := "alice", password := "pw" }
        { users := [{ id := 1, login := "alice", password_hash := "h", created_at := 0,
                      last_login := none }], redis := [] }).snd.status = 200 :=
  ⟨⟨by decide, rfl⟩,
   (login_store_failure_spec "s" (fun _ _ => true) (fun _ => 0) 0
      { login := "alice", password := "pw" }
      { users := [{ id := 1, login := "alice", password_hash := "h", created_at := 0,
                    last_login := none }], redis := [] }
      { id := 1, login := "alice", password_hash := "h", created_at := 0, last_login := none }
      (by decide) rfl).1⟩

/-! ### C7 -/

/-- C7: delete_account performs the same credential check as login — an
unknown login, or a known login whose password verification fails, yields
the same uniform invalid-credentials response and changes nothing — and
on success it revokes every store record of the user strictly before
deleting the account row (witnessed by the event order), after which no
token record of the account remains and the account row is gone. -/
theorem delete_account_spec (verify : String → String → Bool) (req : AuthRequest)
    (st : SysState) :
    (get_user_by_login st.users req.login = none →
      delete_account verify true req st = (st, invalidCredentialsResponse, [])) ∧
    (∀ u, get_user_by_login st.users req.login = some u →
      verify req.password u.password_hash = false →
      delete_account verify true req st = (st, invalidCredentialsResponse, [])) ∧
    (∀ u, get_user_by_login st.users req.login = some u →
      verify req.password u.password_hash = true →
      (delete_account verify true req st).snd.snd
          = [Event.revokeTokens u.id, Event.deleteUserRec u.id] ∧
      (∀ e ∈ (delete_account verify true req st).fst.redis, e.value.user_id ≠ u.id) ∧
      get_user_by_id (delete_account verify true req st).fst.users u.id = none ∧
      (delete_account verify true req st).snd.fst
          = { status := 200,
              content := [("message", JsonVal.s "User deleted successfully")] }) := by
  refine ⟨?_, ?_, ?_⟩
  · intro h
    simp [delete_account, h]
  · intro u hu hv
    simp [delete_account, hu, hv]
  · intro u hu hv
    have hred : (delete_account verify true req st).fst.redis
        = st.redis.filter (fun e => e.value.user_id != u.id) := by
      simp [delete_account, hu, hv, revoke_user_tokens, revokeScan_eq]
    have husers : (delete_account verify true req st).fst.users
        = st.users.filter (fun x => x.id != u.id) := by
      simp [delete_account, hu, hv, delete_user]
    refine ⟨by simp [delete_account, hu, hv], ?_, ?_, by simp [delete_account, hu, hv]⟩
    · intro e he
      rw [hred] at he
      simpa using List.of_mem_filter he
    · rw [husers, get_user_by_id, List.find?_eq_none]
      intro x hx
      simpa using List.of_mem_filter hx

/-- C7 witness: deleting a concrete account purges its token and row. -/
theorem delete_account_spec_witness :
    (get_user_by_login [{ id := 1, login := "alice", password_hash := "h", created_at := 0,
                          last_login := none }] "alice"
       = some { id := 1, login := "alice", password_hash := "h", created_at := 0,
                last_login := none } ∧
     (fun (_ : String) (_ : String) => true) "pw" "h" = true) ∧
    (delete_account (fun _ _ => true) true { login := "alice", password := "pw" }
        { users := [{ id := 1, login := "alice", password_hash := "h", created_at := 0,
                      last_login := none }],
          redis := [{ key := "token:t",
                      value := { user_id := 1, expires_at := 100, created_at := 0 },
                      ttl := 100 }] }).snd.snd
      = [Event.revokeTokens 1, Event.deleteUserRec 1] :=
  ⟨⟨by decide, rfl⟩,
   ((delete_account_spec (fun _ _ => true) { login := "alice", password := "pw" }
      { users := [{ id := 1, login := "alice", password_hash := "h", created_at := 0,
                    last_login := none }],
        redis := [{ key := "token:t",
                    value := { user_id := 1, expires_at := 100, created_at := 0 },
                    ttl := 100 }] }).2.2
      { id := 1, login := "alice", password_hash := "h", created_at := 0, last_login := none }
      (by decide) rfl).1⟩
